import Mathlib

/-!
Shallow embedding of the MQTT connection lifecycle manager from
crates/rustyfarian-esp-idf-mqtt/src/lib.rs, together with proofs of the
behavioural properties stated in the specification.

Modelling conventions:
* Byte slices are `List Nat`.
* The two shared atomic booleans (`connected`, `shutdown`) are relaxed
  atomics with a single writer each, so the sequence of values a reader
  observes is monotone (some prefix of `false` reads, then `true` reads).
  Loads of the shutdown flag by the event loop are therefore modelled by a
  load counter and a threshold `sdThreshold`: the n-th load returns `true`
  iff `sdThreshold ≤ n`.
* Calls into the external transport client (subscribe, enqueue) and the
  single store to the shutdown flag are recorded as an ordered action
  trace, so that ordering and counting claims can be stated.
* Fallible external calls (transport open, subscribe) are parameters
  returning `Except String Unit`; the layer itself adds no failure points
  beyond propagating these, exactly as in the source.
-/

namespace Rustyfarian

/-- Quality-of-service levels of the ESP-IDF MQTT client
(`esp_idf_svc::mqtt::client::QoS`). -/
inductive QoS where
  | AtMostOnce
  | AtLeastOnce
  | ExactlyOnce
deriving DecidableEq, Repr

/-- Last Will and Testament configuration (`struct LwtConfig` in lib.rs).
Fields are stored exactly as given; the constructor performs no
validation. -/
structure LwtConfig where
  topic : String
  payload : List Nat
  qos : QoS
  retain : Bool
deriving DecidableEq, Repr

/-- `LwtConfig::new` (lib.rs lines 55-62): stores the four fields
unchanged. -/
def LwtConfig.new (topic : String) (payload : List Nat) (qos : QoS) (retain : Bool) :
    LwtConfig :=
  ⟨topic, payload, qos, retain⟩

/-- MQTT broker connection configuration (`struct MqttConfig`). -/
structure MqttConfig where
  host : String
  port : Nat
  client_id : String
  keep_alive_secs : Option Nat
  connection_timeout_ms : Option Nat
  lwt : Option LwtConfig
  username : Option String
  password : Option String
deriving DecidableEq, Repr

/-- `MqttConfig::new`: required fields only, all options absent. -/
def MqttConfig.new (host : String) (port : Nat) (client_id : String) : MqttConfig :=
  ⟨host, port, client_id, none, none, none, none, none⟩

/-- `MqttConfig::with_keep_alive`. -/
def MqttConfig.with_keep_alive (c : MqttConfig) (secs : Nat) : MqttConfig :=
  { c with keep_alive_secs := some secs }

/-- `MqttConfig::with_timeout`. -/
def MqttConfig.with_timeout (c : MqttConfig) (ms : Nat) : MqttConfig :=
  { c with connection_timeout_ms := some ms }

/-- `MqttConfig::with_lwt`. -/
def MqttConfig.with_lwt (c : MqttConfig) (lwt : LwtConfig) : MqttConfig :=
  { c with lwt := some lwt }

/-- `MqttConfig::with_auth`. -/
def MqttConfig.with_auth (c : MqttConfig) (username password : String) : MqttConfig :=
  { c with username := some username, password := some password }

/-- Transport-level LWT configuration (`esp_idf_svc` `LwtConfiguration`). -/
structure LwtConfiguration where
  topic : String
  payload : List Nat
  qos : QoS
  retain : Bool
deriving DecidableEq, Repr

/-- Transport-level client configuration (`MqttClientConfiguration`); the
keep-alive interval is kept in seconds. -/
structure MqttClientConfiguration where
  client_id : Option String
  keep_alive_interval : Option Nat
  lwt : Option LwtConfiguration
  username : Option String
  password : Option String
deriving DecidableEq, Repr

/-- Construction of the transport configuration from `MqttConfig`
(lib.rs lines 175-189). Note: a total function — the layer performs no
validation of any field here; in particular the Last-Will, when present,
is mapped field-by-field into the transport configuration whatever its
topic is. -/
def build_mqtt_cfg (config : MqttConfig) : MqttClientConfiguration :=
  { client_id := some config.client_id
  , keep_alive_interval := some (config.keep_alive_secs.getD 30)
  , lwt := config.lwt.map (fun lwt =>
      { topic := lwt.topic, payload := lwt.payload, qos := lwt.qos, retain := lwt.retain })
  , username := config.username
  , password := config.password }

/-- Transport event payloads, covering exactly the variants the event
loop matches on (lib.rs lines 208-236); `Other` stands for the remaining
`EventPayload` variants, all handled by the wildcard arm. A `Received`
event carries the optional topic and the data bytes. -/
inductive EventPayload where
  | Connected (session_present : Bool)
  | Subscribed (id : Int)
  | Received (topic : Option String) (data : List Nat)
  | Error (msg : String)
  | Disconnected
  | Other
deriving DecidableEq, Repr

/-- State owned by the background event loop: the shared `connected` flag
(as last stored by the loop, its single writer) and the ordered list of
handler invocations `(topic, data)` made so far. -/
structure LoopState where
  connected : Bool
  invocations : List (String × List Nat)
deriving DecidableEq, Repr

/-- Loop state at thread start: `connected` initialised to `false`
(lib.rs line 194), no handler invocations yet. -/
def initLoopState : LoopState := ⟨false, []⟩

/-- The background event loop (lib.rs lines 201-239), run over the finite
list of events the transport stream yields before ending. `loads` counts
loads of the shutdown flag issued so far; a load returns `true` iff its
index is at least `sdThreshold` (monotone single-writer relaxed atomic).
Per iteration: read an event, load the shutdown flag and break if set
(discarding the event), otherwise dispatch on the payload. The
`Disconnected` arm loads the flag a second time and breaks if set. The
handler is invoked for a `Received` event exactly when its topic is
present and is literally contained in `topic_filters`. -/
def runLoop (topic_filters : List String) (sdThreshold : Nat) :
    List EventPayload → Nat → LoopState → LoopState
  | [], _, st => st
  | e :: rest, loads, st =>
    if sdThreshold ≤ loads then st
    else
      match e with
      | .Connected _ =>
          runLoop topic_filters sdThreshold rest (loads + 1) { st with connected := true }
      | .Subscribed _ => runLoop topic_filters sdThreshold rest (loads + 1) st
      | .Received (some topic_str) data =>
          if topic_filters.contains topic_str then
            runLoop topic_filters sdThreshold rest (loads + 1)
              { st with invocations := st.invocations ++ [(topic_str, data)] }
          else
            runLoop topic_filters sdThreshold rest (loads + 1) st
      | .Received none _ => runLoop topic_filters sdThreshold rest (loads + 1) st
      | .Error _ => runLoop topic_filters sdThreshold rest (loads + 1) st
      | .Disconnected =>
          if sdThreshold ≤ loads + 1 then st
          else runLoop topic_filters sdThreshold rest (loads + 2) st
      | .Other => runLoop topic_filters sdThreshold rest (loads + 1) st

/-- The topic-router decision for one event: the `(topic, data)` pair the
handler is called with when the event is a `Received` whose topic is
present and exactly matches a subscribed filter, `none` otherwise. -/
def dispatchMatch (topic_filters : List String) : EventPayload → Option (String × List Nat)
  | .Received (some topic_str) data =>
      if topic_filters.contains topic_str then some (topic_str, data) else none
  | _ => none

/-- Whether an event is a `Received` that the loop silently drops: topic
absent, or topic present but not an exact member of the filter list. -/
def droppedReceived (topic_filters : List String) : EventPayload → Bool
  | .Received none _ => true
  | .Received (some topic_str) _ => !(topic_filters.contains topic_str)
  | _ => false

/-- Calls the manager issues to the transport client, plus the single
store to the shutdown flag, recorded in program order. The
`disconnectTransport` action is in the alphabet so that its absence can
be stated; no code path of this layer emits it. -/
inductive ClientAction where
  | subscribeReq (topic : String) (qos : QoS)
  | publishAttempt (topic : String) (payload : String) (qos : QoS) (retain : Bool)
  | storeShutdownTrue
  | disconnectTransport
deriving DecidableEq, Repr

/-- Owner-side manager state: the client id kept for lifecycle topic
names, the current value of the shared shutdown flag, and the ordered
action trace. -/
structure ManagerState where
  client_id : String
  shutdownFlag : Bool
  actions : List ClientAction
deriving DecidableEq, Repr

/-- Manager as assembled in `MqttManager::new` (lib.rs lines 241-246):
shutdown flag freshly `false`, no actions issued yet. -/
def initManager (client_id : String) : ManagerState :=
  ⟨client_id, false, []⟩

/-- `MqttManager::publish_with` (lib.rs lines 288-298): enqueues the
message with the transport client. The attempt is recorded
unconditionally; acceptance or rejection of the enqueue is the
transport's decision and carries no manager state. -/
def publish_with (st : ManagerState) (topic : String) (payload : String)
    (qos : QoS) (retain : Bool) : ManagerState :=
  { st with actions := st.actions ++ [.publishAttempt topic payload qos retain] }

/-- `MqttManager::publish` (lib.rs lines 276-278): QoS 1, no retain. -/
def publish (st : ManagerState) (topic payload : String) : ManagerState :=
  publish_with st topic payload .AtLeastOnce false

/-- `MqttManager::send_shutdown_message` (lib.rs lines 318-321):
publishes payload "1" to the topic derived from the client id. -/
def send_shutdown_message (st : ManagerState) : ManagerState :=
  publish st ("iot/" ++ st.client_id ++ "/shutdown") "1"

/-- `MqttManager::shutdown` (lib.rs lines 329-337): first attempt the
shutdown-notification publish (a failure is logged and swallowed), then
store `true` into the shutdown flag. There is no check of the flag before
either step. -/
def shutdown (st : ManagerState) : ManagerState :=
  let st1 := send_shutdown_message st
  { st1 with shutdownFlag := true, actions := st1.actions ++ [.storeShutdownTrue] }

/-- `impl Drop for MqttManager` (lib.rs lines 340-347): dropping calls
`shutdown`. -/
def dropManager (st : ManagerState) : ManagerState :=
  shutdown st

/-- Projection of the action trace to publish attempts `(topic, payload)`. -/
def publishAttempts (st : ManagerState) : List (String × String) :=
  st.actions.filterMap (fun a =>
    match a with
    | .publishAttempt t p _ _ => some (t, p)
    | _ => none)

/-- Whether an action is the store of `true` to the shutdown flag. -/
def isStoreShutdown : ClientAction → Bool
  | .storeShutdownTrue => true
  | _ => false

/-- Whether an action is a publish attempt with the given topic and
payload. -/
def isPublishTo (topic payload : String) : ClientAction → Bool
  | .publishAttempt t p _ _ => t == topic && p == payload
  | _ => false

/-- Whether an action is an explicit transport teardown. -/
def isDisconnectTransport : ClientAction → Bool
  | .disconnectTransport => true
  | _ => false

/-- Result of the connection-confirmation wait (lib.rs lines 248-262):
how many 100 ms sleeps were performed, whether the timeout warning was
logged, and whether the loop broke because it saw the connected flag
`true`. -/
structure WaitResult where
  sleeps : Nat
  warned : Bool
  confirmed : Bool
deriving DecidableEq, Repr

/-- One run of the wait loop `for i in 0..iterations`, counting down the
`remaining` iterations; the current index is `iterations - remaining`.
Each iteration loads the connected flag (`conn i` gives the value the
i-th poll observes) and breaks if it is `true`; otherwise it sleeps
100 ms, and logs the timeout warning when `i == iterations - 1`. -/
def waitGo (conn : Nat → Bool) (iterations : Nat) : Nat → WaitResult
  | 0 => ⟨0, false, false⟩
  | remaining + 1 =>
    if conn (iterations - (remaining + 1)) then ⟨0, false, true⟩
    else
      let r := waitGo conn iterations remaining
      ⟨r.sleeps + 1, r.warned || ((iterations - (remaining + 1)) == iterations - 1),
        r.confirmed⟩

/-- The connection wait as performed by `MqttManager::new`: the timeout
defaults to 5000 ms and the iteration count is the integer division
`timeout_ms / 100` (lib.rs lines 249-250). -/
def connectionWait (connection_timeout_ms : Option Nat) (conn : Nat → Bool) : WaitResult :=
  let timeout_ms := connection_timeout_ms.getD 5000
  let iterations := timeout_ms / 100
  waitGo conn iterations iterations

/-- The subscribe loop of `MqttManager::new` (lib.rs lines 265-268):
subscribe to each topic at QoS 1 in order; the first failure aborts the
loop and is propagated. Returns the outcome together with the subscribe
requests actually issued. -/
def subscribeAll (sub : String → Except String Unit) :
    List String → Except String Unit × List ClientAction
  | [] => (.ok (), [])
  | t :: rest =>
    match sub t with
    | .error e => (.error e, [.subscribeReq t .AtLeastOnce])
    | .ok _ =>
      let res := subscribeAll sub rest
      (res.1, .subscribeReq t .AtLeastOnce :: res.2)

/-- Everything observable about one run of `MqttManager::new`: the
returned value, the wait-loop outcome, and the transport-facing action
trace issued by the constructor (including, on the error path, the
actions of the `Drop` that runs on the not-returned manager). -/
structure NewOutcome where
  result : Except String ManagerState
  wait : WaitResult
  actions : List ClientAction
deriving Repr

/-- `MqttManager::new` (lib.rs lines 161-271). External effects are
parameters: `transportNew` is `EspMqttClient::new` (applied to the
broker url and the built configuration), `conn` gives the values the
connected-flag polls observe, `sub` is `client.subscribe`. Control flow
as in the source: build the configuration (no validation), open the
transport (an error propagates), wait for the connection confirmation
(its outcome is never an error), then subscribe to every topic (the
first failure propagates, after which the local manager is dropped,
which runs `shutdown`). -/
def mqttNew (config : MqttConfig) (incoming_topics : List String)
    (transportNew : String → MqttClientConfiguration → Except String Unit)
    (conn : Nat → Bool) (sub : String → Except String Unit) : NewOutcome :=
  let mqtt_cfg := build_mqtt_cfg config
  let mqtt_url := "mqtt://" ++ config.host ++ ":" ++ toString config.port
  match transportNew mqtt_url mqtt_cfg with
  | .error e => ⟨.error e, ⟨0, false, false⟩, []⟩
  | .ok _ =>
    let manager := initManager config.client_id
    let wait := connectionWait config.connection_timeout_ms conn
    match subscribeAll sub incoming_topics with
    | (.error e, acts) =>
      let dropped := dropManager manager
      ⟨.error e, wait, acts ++ dropped.actions⟩
    | (.ok _, acts) => ⟨.ok manager, wait, acts⟩

/-- A configuration whose Last-Will is present but has an empty topic. -/
def cfgEmptyLwtTopic : MqttConfig :=
  (MqttConfig.new "10.0.0.5" 1883 "dev-1").with_lwt
    (LwtConfig.new "" [49] QoS.AtLeastOnce false)

/-! ## Helper lemmas -/

/-- Unfolding the effect of one `shutdown` call on the action trace. -/
theorem shutdown_actions (st : ManagerState) :
    (shutdown st).actions =
      st.actions ++
        [ClientAction.publishAttempt ("iot/" ++ st.client_id ++ "/shutdown") "1"
            QoS.AtLeastOnce false,
          ClientAction.storeShutdownTrue] := by
  simp [shutdown, send_shutdown_message, publish, publish_with]

/-- `shutdown` keeps the client id. -/
theorem shutdown_client_id (st : ManagerState) :
    (shutdown st).client_id = st.client_id := by
  simp [shutdown, send_shutdown_message, publish, publish_with]

/-- `shutdown` leaves the flag `true`. -/
theorem shutdown_flag (st : ManagerState) :
    (shutdown st).shutdownFlag = true := by
  simp [shutdown, send_shutdown_message, publish, publish_with]

/-! ## C1 -/

/-- C1, refuted as stated: running the shutdown sequence twice in
sequence (an explicit `shutdown()` followed by the `Drop`-invoked one)
on a fresh manager with client id `dev-1` produces two
shutdown-notification publish attempts, not one. -/
theorem shutdown_twice_single_publish_refuted :
    (publishAttempts (dropManager (shutdown (initManager "dev-1")))).length ≠ 1 ∧
    (publishAttempts (dropManager (shutdown (initManager "dev-1")))).length = 2 := by
  constructor
  · decide
  · decide

/-- C1, amended: the shutdown sequence is not guarded by the flag, so
invoking it twice (explicit `shutdown()` then `Drop`) produces exactly
two shutdown-notification publish attempts, one per invocation, each to
`iot/{client_id}/shutdown` with payload "1"; the shuttingDown flag is
`true` after either invocation. -/
theorem shutdown_twice_publishes_once_per_invocation (cid : String) :
    publishAttempts (dropManager (shutdown (initManager cid))) =
      [("iot/" ++ cid ++ "/shutdown", "1"), ("iot/" ++ cid ++ "/shutdown", "1")] ∧
    (shutdown (initManager cid)).shutdownFlag = true ∧
    (dropManager (shutdown (initManager cid))).shutdownFlag = true := by
  refine ⟨?_, ?_, ?_⟩
  · simp [dropManager, publishAttempts, shutdown_actions, shutdown_client_id, initManager]
  · exact shutdown_flag _
  · exact shutdown_flag _

/-! ## C5 -/

/-- C5: in every execution of the shutdown sequence the
shutdown-notification publish is attempted strictly before the
shuttingDown flag is stored `true`. The background thread observes some
prefix of the owner's action trace; whenever the store of the flag is in
that prefix, a publish attempt to `iot/{client_id}/shutdown` with
payload "1" is in it as well, so no interleaving lets the thread see the
flag `true` before the publish attempt has been issued. -/
theorem publish_attempted_before_flag_store (cid : String) (n : Nat)
    (h : ((shutdown (initManager cid)).actions.take n).any isStoreShutdown = true) :
    ((shutdown (initManager cid)).actions.take n).any
      (isPublishTo ("iot/" ++ cid ++ "/shutdown") "1") = true := by
  match n with
  | 0 =>
    simp [shutdown_actions, initManager, isStoreShutdown] at h
  | 1 =>
    simp [shutdown_actions, initManager, isStoreShutdown, List.take] at h
  | n + 2 =>
    simp [shutdown_actions, initManager, isPublishTo, List.take]

/-- Witness for C5 at client id `dev-1` with the first two actions
observed. -/
theorem publish_attempted_before_flag_store_witness :
    ((shutdown (initManager "dev-1")).actions.take 2).any
      (isPublishTo ("iot/" ++ "dev-1" ++ "/shutdown") "1") = true :=
  publish_attempted_before_flag_store "dev-1" 2 (by decide)

/-! ## Event-loop lemmas -/

/-- As long as the shutdown flag is loaded `false` at every load the run
performs (the load counter stays below the threshold), the loop
dispatches exactly the matching `Received` events, in stream order,
appending them to the invocations made so far. -/
theorem runLoop_invocations_no_shutdown (fl : List String) (th : Nat) :
    ∀ (events : List EventPayload) (loads : Nat) (st : LoopState),
      loads + 2 * events.length ≤ th →
      (runLoop fl th events loads st).invocations =
        st.invocations ++ events.filterMap (dispatchMatch fl) := by
  intro events
  induction events with
  | nil =>
    intro loads st _
    simp [runLoop]
  | cons e rest ih =>
    intro loads st h
    have hlen : loads + 2 * rest.length + 2 ≤ th := by
      simp only [List.length_cons] at h
      omega
    have hl : ¬ th ≤ loads := by omega
    cases e with
    | Connected s =>
      have hrec := ih (loads + 1) { st with connected := true } (by omega)
      simp [runLoop, hl, hrec, dispatchMatch]
    | Subscribed id =>
      have hrec := ih (loads + 1) st (by omega)
      simp [runLoop, hl, hrec, dispatchMatch]
    | Received topicOpt data =>
      cases topicOpt with
      | none =>
        have hrec := ih (loads + 1) st (by omega)
        simp [runLoop, hl, hrec, dispatchMatch]
      | some topic_str =>
        by_cases hc : topic_str ∈ fl
        · have hrec := ih (loads + 1)
            { st with invocations := st.invocations ++ [(topic_str, data)] } (by omega)
          simp [runLoop, hl, hc, hrec, dispatchMatch]
        · have hrec := ih (loads + 1) st (by omega)
          simp [runLoop, hl, hc, hrec, dispatchMatch]
    | Error msg =>
      have hrec := ih (loads + 1) st (by omega)
      simp [runLoop, hl, hrec, dispatchMatch]
    | Disconnected =>
      have hl1 : ¬ th ≤ loads + 1 := by omega
      have hrec := ih (loads + 2) st (by omega)
      simp [runLoop, hl, hl1, hrec, dispatchMatch]
    | Other =>
      have hrec := ih (loads + 1) st (by omega)
      simp [runLoop, hl, hrec, dispatchMatch]

/-- The loop never stores `false` into the connected flag: once `true`,
it stays `true` for the rest of the run, whatever events (including
`Disconnected`) arrive and whenever the shutdown flag is observed. -/
theorem runLoop_connected_monotone (fl : List String) :
    ∀ (events : List EventPayload) (th loads : Nat) (st : LoopState),
      st.connected = true →
      (runLoop fl th events loads st).connected = true := by
  intro events
  induction events with
  | nil =>
    intro th loads st hst
    simpa [runLoop] using hst
  | cons e rest ih =>
    intro th loads st hst
    by_cases hl : th ≤ loads
    · cases e <;> simpa [runLoop, hl] using hst
    · cases e with
      | Connected s =>
        exact by simpa [runLoop, hl] using ih th (loads + 1) { st with connected := true } rfl
      | Subscribed id =>
        exact by simpa [runLoop, hl] using ih th (loads + 1) st hst
      | Received topicOpt data =>
        cases topicOpt with
        | none => exact by simpa [runLoop, hl] using ih th (loads + 1) st hst
        | some topic_str =>
          by_cases hc : topic_str ∈ fl
          · exact by
              simpa [runLoop, hl, hc] using
                ih th (loads + 1)
                  { st with invocations := st.invocations ++ [(topic_str, data)] } hst
          · exact by simpa [runLoop, hl, hc] using ih th (loads + 1) st hst
      | Error msg =>
        exact by simpa [runLoop, hl] using ih th (loads + 1) st hst
      | Disconnected =>
        by_cases hl1 : th ≤ loads + 1
        · simpa [runLoop, hl, hl1] using hst
        · exact by simpa [runLoop, hl, hl1] using ih th (loads + 2) st hst
      | Other =>
        exact by simpa [runLoop, hl] using ih th (loads + 1) st hst

/-! ## C2 -/

/-- C2, refuted as stated: after the loop processes a `Connected` event
followed by a `Disconnected` event (the shutdown flag never observed
set), the connected flag is still `true` — the `Disconnected` arm never
stores `false`. -/
theorem disconnect_resets_connected_refuted :
    (runLoop ["cmd"] 99 [EventPayload.Connected false, EventPayload.Disconnected]
        0 initLoopState).connected ≠ false := by
  decide

/-- C2, amended: the `Disconnected` arm does not write the connected
flag at all; the loop sets it `true` on a `Connected` event and never
resets it, so once a connection has been confirmed the flag remains
`true` for the remainder of the run, disconnects included. -/
theorem connected_never_reset (fl : List String) (events : List EventPayload)
    (th loads : Nat) (st : LoopState) (hst : st.connected = true) :
    (runLoop fl th events loads st).connected = true :=
  runLoop_connected_monotone fl events th loads st hst

/-- Witness for the amended C2: a connected state stays connected across
a `Disconnected` event. -/
theorem connected_never_reset_witness :
    (runLoop ["cmd"] 99 [EventPayload.Disconnected] 0
      { connected := true, invocations := [] }).connected = true :=
  connected_never_reset ["cmd"] [EventPayload.Disconnected] 99 0
    { connected := true, invocations := [] } rfl

/-! ## C3 -/

/-- C3: for any sequence of `Received` events whose topic is absent or
not an exact member of the filter list fixed at construction, the loop
makes no handler invocation at all — the messages are silently dropped,
for every shutdown-flag schedule and every starting state. -/
theorem non_matching_never_dispatched (fl : List String) :
    ∀ (events : List EventPayload) (th loads : Nat) (st : LoopState),
      (∀ e ∈ events, droppedReceived fl e = true) →
      (runLoop fl th events loads st).invocations = st.invocations := by
  intro events
  induction events with
  | nil =>
    intro th loads st _
    simp [runLoop]
  | cons e rest ih =>
    intro th loads st hall
    have he := hall e (List.mem_cons_self e rest)
    have hrest : ∀ x ∈ rest, droppedReceived fl x = true := fun x hx =>
      hall x (List.mem_cons_of_mem e hx)
    by_cases hl : th ≤ loads
    · cases e <;> simp [runLoop, hl]
    · cases e with
      | Connected s => simp [droppedReceived] at he
      | Subscribed id => simp [droppedReceived] at he
      | Received topicOpt data =>
        cases topicOpt with
        | none => simp [runLoop, hl, ih th (loads + 1) st hrest]
        | some topic_str =>
          have hc : ¬ topic_str ∈ fl := by
            simpa [droppedReceived] using he
          simp [runLoop, hl, hc, ih th (loads + 1) st hrest]
      | Error msg => simp [droppedReceived] at he
      | Disconnected => simp [droppedReceived] at he
      | Other => simp [droppedReceived] at he

/-- Witness for C3: two non-matching messages (wrong topic, absent
topic) produce no handler invocation. -/
theorem non_matching_never_dispatched_witness :
    (runLoop ["cmd"] 99
      [EventPayload.Received (some "other") [120], EventPayload.Received none [1]]
      0 initLoopState).invocations = [] :=
  non_matching_never_dispatched ["cmd"]
    [EventPayload.Received (some "other") [120], EventPayload.Received none [1]]
    99 0 initLoopState (by decide)

/-! ## C4 -/

/-- C4: over any event sequence the transport stream yields, while the
shutdown flag is never observed set (every load of the flag the run can
issue stays below the threshold), each `Received` event whose topic
exactly matches a subscribed filter causes exactly one handler
invocation, with no duplication and no drop, in stream (FIFO) order:
the invocation list is precisely the matching events in order. -/
theorem matching_dispatched_exactly_once_in_order (fl : List String)
    (events : List EventPayload) (th : Nat) (h : 2 * events.length ≤ th) :
    (runLoop fl th events 0 initLoopState).invocations =
      events.filterMap (dispatchMatch fl) := by
  have hrec := runLoop_invocations_no_shutdown fl th events 0 initLoopState (by omega)
  simpa [initLoopState] using hrec

/-- Witness for C4: of three events, the two on the subscribed topic are
dispatched once each in order, the other is dropped. -/
theorem matching_dispatched_exactly_once_in_order_witness :
    (runLoop ["cmd"] 10
      [EventPayload.Received (some "cmd") [111, 110],
        EventPayload.Received (some "other") [120],
        EventPayload.Received (some "cmd") [111, 102, 102]]
      0 initLoopState).invocations =
      [("cmd", [111, 110]), ("cmd", [111, 102, 102])] := by
  have h := matching_dispatched_exactly_once_in_order ["cmd"]
    [EventPayload.Received (some "cmd") [111, 110],
      EventPayload.Received (some "other") [120],
      EventPayload.Received (some "cmd") [111, 102, 102]]
    10 (by decide)
  simpa [dispatchMatch] using h

/-! ## C10 -/

/-- C10: when the loop observes the shutdown flag `true` at the top of
an iteration (the load index has reached the threshold), the event just
read is discarded with no processing at all and the loop exits: the
state — in particular the invocation list — is exactly what it was, so a
matching `Received` event does not invoke the handler and no invocation
ever happens after the flag is observed `true`. -/
theorem shutdown_observed_discards_event (fl : List String) (th loads : Nat)
    (e : EventPayload) (rest : List EventPayload) (st : LoopState)
    (h : th ≤ loads) :
    runLoop fl th (e :: rest) loads st = st := by
  cases e <;> simp [runLoop, h]

/-- Witness for C10: with the flag already set, a `Received` event on a
subscribed topic is discarded and the handler is not invoked. -/
theorem shutdown_observed_discards_event_witness :
    runLoop ["cmd"] 0 [EventPayload.Received (some "cmd") [111]] 0 initLoopState =
      initLoopState :=
  shutdown_observed_discards_event ["cmd"] 0 0 (EventPayload.Received (some "cmd") [111])
    [] initLoopState (Nat.le_refl 0)

/-! ## Wait-loop and construction lemmas -/

/-- When every poll observes the connected flag `false`, the wait loop
runs all its remaining iterations: one 100 ms sleep each, the warning
logged on the last iteration (so exactly when at least one iteration
runs), and no confirmation. -/
theorem waitGo_never_connected (conn : Nat → Bool) (hconn : ∀ i, conn i = false)
    (iterations : Nat) :
    ∀ remaining, waitGo conn iterations remaining =
      ⟨remaining, decide (1 ≤ remaining), false⟩ := by
  intro remaining
  induction remaining with
  | zero => simp [waitGo]
  | succ r ih =>
    rw [waitGo]
    rw [hconn (iterations - (r + 1))]
    simp only [Bool.false_eq_true, if_false, ih]
    cases r with
    | zero => simp
    | succ r2 => simp

/-- The subscribe loop over topics that all succeed: overall success,
one subscribe request per topic, in order. -/
theorem subscribeAll_all_ok (sub : String → Except String Unit)
    (hsub : ∀ t, sub t = .ok ()) :
    ∀ topics, subscribeAll sub topics =
      (.ok (), topics.map (fun t => ClientAction.subscribeReq t QoS.AtLeastOnce)) := by
  intro topics
  induction topics with
  | nil => simp [subscribeAll]
  | cons t rest ih => simp [subscribeAll, hsub t, ih]

/-- The subscribe loop when the topics before `t` succeed and `t`
fails: the error is propagated, and the requests issued are those for
the earlier topics plus the failing one; later topics are not attempted. -/
theorem subscribeAll_first_failure (sub : String → Except String Unit)
    (t e : String) (ht : sub t = .error e) :
    ∀ (pre : List String), (∀ p ∈ pre, sub p = .ok ()) →
      ∀ post, subscribeAll sub (pre ++ t :: post) =
        (.error e,
          pre.map (fun s => ClientAction.subscribeReq s QoS.AtLeastOnce) ++
            [ClientAction.subscribeReq t QoS.AtLeastOnce]) := by
  intro pre
  induction pre with
  | nil =>
    intro _ post
    simp [subscribeAll, ht]
  | cons p rest ih =>
    intro hpre post
    have hp := hpre p (List.mem_cons_self p rest)
    have hrest : ∀ x ∈ rest, sub x = .ok () := fun x hx =>
      hpre x (List.mem_cons_of_mem p hx)
    simp [subscribeAll, hp, ih hrest post]

/-! ## C9 -/

/-- C9: the connection wait performs `timeout_ms / 100` (integer
division) polling iterations of 100 ms each when no poll ever sees the
flag set; and for every timeout strictly below 100 ms (0 included) the
loop body never runs at all — whatever the connected flag does, there
are zero sleeps, the flag is not consulted, and the timeout warning is
not logged. -/
theorem connection_wait_iteration_count (t : Nat) (conn : Nat → Bool) :
    ((∀ i, conn i = false) →
      connectionWait (some t) conn = ⟨t / 100, decide (1 ≤ t / 100), false⟩) ∧
    (t < 100 → connectionWait (some t) conn = ⟨0, false, false⟩) := by
  constructor
  · intro hconn
    simpa [connectionWait] using waitGo_never_connected conn hconn (t / 100) (t / 100)
  · intro ht
    have hz : t / 100 = 0 := Nat.div_eq_of_lt ht
    simp [connectionWait, hz, waitGo]

/-- Witness for C9: timeout 250 ms and a never-true flag give two
sleeps plus the warning; timeout 99 ms gives an untouched loop. -/
theorem connection_wait_iteration_count_witness :
    connectionWait (some 250) (fun _ => false) = ⟨2, true, false⟩ ∧
    connectionWait (some 99) (fun _ => false) = ⟨0, false, false⟩ := by
  constructor
  · have h := (connection_wait_iteration_count 250 (fun _ => false)).1 (fun _ => rfl)
    simpa using h
  · exact (connection_wait_iteration_count 99 (fun _ => false)).2 (by decide)

/-! ## C6 -/

/-- C6: when no `Connected` event ever arrives (every poll sees the
connected flag `false`) and the transport and all subscribes succeed,
construction with a configured timeout of at least 100 ms is not an
error: the wait performs its full `timeout_ms / 100` sleeps of 100 ms
(so construction proceeds after approximately the timeout), logs the
timeout warning, goes on to subscribe, and returns the manager — with
the connection never confirmed, the connected flag still reading
`false`. -/
theorem connect_timeout_not_an_error (cfg : MqttConfig) (topics : List String)
    (tn : String → MqttClientConfiguration → Except String Unit)
    (conn : Nat → Bool) (sub : String → Except String Unit) (t : Nat)
    (ht : cfg.connection_timeout_ms = some t) (h100 : 100 ≤ t)
    (hconn : ∀ i, conn i = false)
    (htn : ∀ u c, tn u c = .ok ())
    (hsub : ∀ s, sub s = .ok ()) :
    (mqttNew cfg topics tn conn sub).result = .ok (initManager cfg.client_id) ∧
    (mqttNew cfg topics tn conn sub).wait = ⟨t / 100, true, false⟩ := by
  have hwarn : decide (1 ≤ t / 100) = true := by
    have : 1 ≤ t / 100 := (Nat.one_le_div_iff (by omega)).mpr h100
    simpa using this
  have hwait : connectionWait cfg.connection_timeout_ms conn =
      ⟨t / 100, true, false⟩ := by
    rw [ht]
    have h := waitGo_never_connected conn hconn (t / 100) (t / 100)
    rw [hwarn] at h
    simpa [connectionWait] using h
  constructor
  · simp [mqttNew, htn, subscribeAll_all_ok sub hsub topics]
  · simp [mqttNew, htn, subscribeAll_all_ok sub hsub topics, hwait]

/-- Witness for C6: timeout 200 ms, the flag never set, transport and
subscribes succeeding — construction returns the manager after two
100 ms sleeps, with the warning logged and the connection never
confirmed. -/
theorem connect_timeout_not_an_error_witness :
    (mqttNew ((MqttConfig.new "10.0.0.5" 1883 "dev-1").with_timeout 200) ["cmd"]
        (fun _ _ => .ok ()) (fun _ => false) (fun _ => .ok ())).result =
      .ok (initManager "dev-1") ∧
    (mqttNew ((MqttConfig.new "10.0.0.5" 1883 "dev-1").with_timeout 200) ["cmd"]
        (fun _ _ => .ok ()) (fun _ => false) (fun _ => .ok ())).wait =
      ⟨2, true, false⟩ := by
  have h := connect_timeout_not_an_error
    ((MqttConfig.new "10.0.0.5" 1883 "dev-1").with_timeout 200) ["cmd"]
    (fun _ _ => .ok ()) (fun _ => false) (fun _ => .ok ()) 200
    rfl (by decide) (fun _ => rfl) (fun _ _ => rfl) (fun _ => rfl)
  exact h

/-! ## C7 -/

/-- C7, refuted as stated: with a partially specified Last-Will (present
but empty topic), construction does not fail with a configuration error
— with a transport and subscribes that succeed it returns the manager,
and the empty-topic Last-Will has been handed to the transport
configuration unchanged. -/
theorem empty_lwt_topic_error_refuted :
    (mqttNew cfgEmptyLwtTopic ["cmd"] (fun _ _ => .ok ()) (fun _ => false)
        (fun _ => .ok ())).result = .ok (initManager "dev-1") ∧
    (build_mqtt_cfg cfgEmptyLwtTopic).lwt =
      some ⟨"", [49], QoS.AtLeastOnce, false⟩ := by
  constructor
  · rfl
  · rfl

/-- C7, amended: the layer performs no Last-Will validation at all. A
Last-Will with an empty topic is not rejected: it is mapped
field-by-field into the transport configuration (topic still empty), and
when the transport open and every subscribe succeed, construction
returns the manager successfully. -/
theorem empty_lwt_topic_passed_through (cfg : MqttConfig) (l : LwtConfig)
    (topics : List String)
    (tn : String → MqttClientConfiguration → Except String Unit)
    (conn : Nat → Bool) (sub : String → Except String Unit)
    (hl : cfg.lwt = some l) (hempty : l.topic = "")
    (htn : ∀ u c, tn u c = .ok ())
    (hsub : ∀ s, sub s = .ok ()) :
    (build_mqtt_cfg cfg).lwt = some ⟨"", l.payload, l.qos, l.retain⟩ ∧
    (mqttNew cfg topics tn conn sub).result = .ok (initManager cfg.client_id) := by
  constructor
  · simp [build_mqtt_cfg, hl, ← hempty]
  · simp [mqttNew, htn, subscribeAll_all_ok sub hsub topics]

/-- Witness for the amended C7 at the empty-topic configuration. -/
theorem empty_lwt_topic_passed_through_witness :
    (build_mqtt_cfg cfgEmptyLwtTopic).lwt =
      some ⟨"", [49], QoS.AtLeastOnce, false⟩ ∧
    (mqttNew cfgEmptyLwtTopic ["cmd"] (fun _ _ => .ok ()) (fun _ => false)
        (fun _ => .ok ())).result = .ok (initManager "dev-1") :=
  empty_lwt_topic_passed_through cfgEmptyLwtTopic
    (LwtConfig.new "" [49] QoS.AtLeastOnce false) ["cmd"]
    (fun _ _ => .ok ()) (fun _ => false) (fun _ => .ok ())
    rfl rfl (fun _ _ => rfl) (fun _ => rfl)

/-! ## C8 -/

/-- C8: if a subscribe request issued during construction fails (the
topics before it succeeded), construction returns that error, and the
action trace of the whole construction contains no explicit transport
teardown — the connection opened earlier is left as is by this layer. -/
theorem subscribe_failure_fatal_no_teardown (cfg : MqttConfig)
    (pre post : List String) (t e : String)
    (tn : String → MqttClientConfiguration → Except String Unit)
    (conn : Nat → Bool) (sub : String → Except String Unit)
    (htn : ∀ u c, tn u c = .ok ())
    (hpre : ∀ p ∈ pre, sub p = .ok ())
    (ht : sub t = .error e) :
    (mqttNew cfg (pre ++ t :: post) tn conn sub).result = .error e ∧
    (mqttNew cfg (pre ++ t :: post) tn conn sub).actions.any isDisconnectTransport =
      false := by
  have hfail := subscribeAll_first_failure sub t e ht pre hpre post
  constructor
  · simp [mqttNew, htn, hfail]
  · simp [mqttNew, htn, hfail, dropManager, shutdown_actions, initManager,
      isDisconnectTransport, List.any_map]

/-- Witness for C8: the second of three subscribes fails; construction
returns the error and issues no transport teardown. -/
theorem subscribe_failure_fatal_no_teardown_witness :
    (mqttNew (MqttConfig.new "10.0.0.5" 1883 "dev-1") (["a"] ++ "b" :: ["c"])
        (fun _ _ => .ok ()) (fun _ => false)
        (fun s => if s == "b" then .error "boom" else .ok ())).result =
      .error "boom" ∧
    (mqttNew (MqttConfig.new "10.0.0.5" 1883 "dev-1") (["a"] ++ "b" :: ["c"])
        (fun _ _ => .ok ()) (fun _ => false)
        (fun s => if s == "b" then .error "boom" else .ok ())).actions.any
      isDisconnectTransport = false :=
  subscribe_failure_fatal_no_teardown (MqttConfig.new "10.0.0.5" 1883 "dev-1")
    ["a"] ["c"] "b" "boom" (fun _ _ => .ok ()) (fun _ => false)
    (fun s => if s == "b" then .error "boom" else .ok ())
    (fun _ _ => rfl)
    (by intro p hp; simp only [List.mem_singleton] at hp; subst hp; rfl)
    rfl

end Rustyfarian
